import Mathlib

/-!
Verification development for the Mod_Recomendador course-recommendation system.

The definitions below are a shallow embedding of the Python sources:
  - data_loader.py   (DataLoader: student history, course catalog, validation)
  - recommend.py     (CourseRecommender: prerequisite gating, track weighting,
                      prioritised recommendation pipeline)
  - cf_model.py      (CollaborativeFilteringModel.recommend: masked top-k ranking)
  - kg_builder.py    (KnowledgeGraphBuilder: HAS_PREREQ edges, embedding lookups,
                      the simplified skip-gram walk update)

Numeric values (Python floats, 0-20 grades, scores) are modelled as rationals;
the knowledge-graph walk update, whose renormalisation step divides by a
Euclidean norm (a square root), is modelled over the reals.  Neural-network /
trained-model scores that the orchestrator merely consumes
(hybrid_model.predict_score, content_model.compute_similarity,
cf_model.predict_score, kg_builder.get_course_neighbors) are passed in as
oracle functions, mirroring how CourseRecommender holds those collaborators.
-/

namespace ModRec

/-- A row of courses.csv after DataLoader.load_courses processing:
course_code, course_name, prereq_codes (split on semicolons), lineas_carrera. -/
structure Course where
  course_code : String
  course_name : String
  prereq_codes : List String
  lineas_carrera : List String
deriving DecidableEq

/-- A row of courses_taken.csv after DataLoader.load_courses_taken processing:
alumno, course_code, cycle, grade. -/
structure TakenRecord where
  alumno : String
  course_code : String
  cycle : Nat
  grade : ℚ
deriving DecidableEq

/-! ## data_loader.py -/

/-- The rows of courses_taken belonging to one student
(`self.courses_taken[self.courses_taken[..alumno..] == student_id]`). -/
def studentRecords (records : List TakenRecord) (sid : String) : List TakenRecord :=
  records.filter (fun r => r.alumno == sid)

/-- history[..all_courses..]: every attempt of the student, repeats included
(`student_data[..course_code..].tolist()`). -/
def all_courses_of (records : List TakenRecord) (sid : String) : List String :=
  (studentRecords records sid).map (fun r => r.course_code)

/-- The grades of all attempts of one student at one course. -/
def gradesOf (records : List TakenRecord) (sid c : String) : List ℚ :=
  ((studentRecords records sid).filter (fun r => r.course_code == c)).map (fun r => r.grade)

/-- history[..grades..] entry for a course: the best grade over all attempts
(`student_data.groupby(..course_code..)[..grade..].max()`); none when the
student never attempted the course. -/
def best_grade (records : List TakenRecord) (sid c : String) : Option ℚ :=
  match gradesOf records sid c with
  | [] => none
  | g :: gs => some (gs.foldl max g)

/-- history[..passed_courses..]: the distinct courses whose best grade reaches
the threshold (`best_grades[best_grades >= pass_threshold].index.tolist()`).
The Python list is in groupby (sorted) order; here first-occurrence order is
used, which agrees as a set. -/
def passed_courses (records : List TakenRecord) (sid : String) (th : ℚ) : List String :=
  (all_courses_of records sid).dedup.filter (fun c =>
    match best_grade records sid c with
    | none => false
    | some g => th ≤ g)

/-- DataLoader.get_course_info: linear catalog lookup by course code,
none when the course is not in the catalog. -/
def get_course_info (catalog : List Course) (code : String) : Option Course :=
  catalog.find? (fun c => c.course_code == code)

/-- DataLoader.get_all_courses: the catalog course codes. -/
def catalogCodes (catalog : List Course) : List String :=
  catalog.map (fun c => c.course_code)

/-- All prerequisite codes declared anywhere in the catalog
(the all_prereqs set of validate_data_consistency). -/
def allPrereqs (catalog : List Course) : List String :=
  catalog.flatMap (fun c => c.prereq_codes)

/-- The invalid-prerequisite codes reported by
DataLoader.validate_data_consistency (`all_prereqs - catalog_courses`). -/
def invalidPrereqs (catalog : List Course) : List String :=
  (allPrereqs catalog).filter (fun p => ¬ (p ∈ catalogCodes catalog))

/-! ## kg_builder.py : build_graph, HAS_PREREQ edges -/

/-- The HAS_PREREQ edges added by KnowledgeGraphBuilder.build_graph step 5:
for each catalog course and each of its declared prerequisites, an edge
(course, prereq) is added only when the prerequisite is a Course node.
At that point of the build the Course nodes are exactly the catalog courses
(namespaced keys keep Linea and Student nodes distinct), so the
`graph.has_node` test is membership of the prerequisite in the catalog codes. -/
def hasPrereqEdges (catalog : List Course) : List (String × String) :=
  catalog.flatMap (fun c =>
    (c.prereq_codes.filter (fun p => p ∈ catalogCodes catalog)).map
      (fun p => (c.course_code, p)))

/-! ## recommend.py : CourseRecommender -/

/-- CourseRecommender.OBLIGATORY_COURSES (hardcoded set of obligatory codes). -/
def OBLIGATORY_COURSES : List String :=
  [("BAE01"), ("BFI01"), ("BIC01"), ("BMA01"), ("BMA03"), ("BRN01"), ("CBS01"),
   ("BFI05"), ("BMA02"), ("BMA09"), ("BQU01"), ("BRC01"), ("CBS02"),
   ("BEG01"), ("BFI03"), ("BMA05"), ("BMA10"), ("BMA15"), ("EE306"),
   ("BEF01"), ("CBN01"), ("BMA07"), ("BMA18"), ("EE320"), ("EE410"), ("BIE01"),
   ("BMA22"), ("TLR01"), ("TLN01"), ("EE428"), ("EE522"), ("CBS05"),
   ("EE430"), ("TLR02"), ("EE458"), ("EE588"), ("EE604"), ("TLN02"),
   ("TLR03"), ("EE530"), ("EE590"),
   ("BEG06"), ("EE498"), ("EE592"),
   ("TLR04"), ("CIB45"), ("TLR05"),
   ("EE712"), ("CIB46")]

/-- CourseRecommender.cumple_prereqs: true when the course has no catalog
entry or no declared prerequisites, otherwise true exactly when every
declared prerequisite is in the student's passed set computed with the
hardcoded pass threshold 10.0. -/
def cumple_prereqs (catalog : List Course) (records : List TakenRecord)
    (sid code : String) : Bool :=
  match get_course_info catalog code with
  | none => true
  | some info =>
    if info.prereq_codes.isEmpty then true
    else info.prereq_codes.all (fun p => p ∈ passed_courses records sid 10)

/-- The declared prerequisite list of a course, empty when the course has no
catalog entry (the list cumple_prereqs iterates over). -/
def prereqsOf (catalog : List Course) (code : String) : List String :=
  match get_course_info catalog code with
  | none => []
  | some info => info.prereq_codes

/-- The clamp max(0.0, min(1.0, x)) of calcular_peso_lineas, written with
explicit conditionals (see clamp01_eq_max_min). -/
def clamp01 (x : ℚ) : ℚ :=
  if x ≤ 0 then 0 else if 1 ≤ x then 1 else x

lemma clamp01_eq_max_min (x : ℚ) : clamp01 x = max 0 (min 1 x) := by
  unfold clamp01
  rcases le_or_lt x 0 with h0 | h0
  · rw [if_pos h0, min_eq_right (h0.trans (by norm_num)), max_eq_left h0]
  · rw [if_neg (not_le.mpr h0)]
    rcases le_or_lt 1 x with h1 | h1
    · rw [if_pos h1, min_eq_left h1, max_eq_right (by norm_num)]
    · rw [if_neg (not_le.mpr h1), min_eq_right h1.le, max_eq_right h0.le]

/-- The related_grades list of calcular_peso_lineas: the best grades of the
passed courses that have catalog info, a nonempty linea list, and at least
one linea in common with the target course info. -/
def relatedGrades (catalog : List Course) (records : List TakenRecord)
    (sid : String) (info : Course) : List ℚ :=
  (passed_courses records sid 10).filterMap (fun pc =>
    match get_course_info catalog pc with
    | none => none
    | some pinfo =>
      if pinfo.lineas_carrera.isEmpty then none
      else if info.lineas_carrera.any (fun l => l ∈ pinfo.lineas_carrera) then
        some ((best_grade records sid pc).getD 0)
      else none)

/-- CourseRecommender.calcular_peso_lineas: average the student's best grades
over passed courses sharing at least one linea with the target course, map
grades 10-20 linearly onto 0-1 and clamp. -/
def calcular_peso_lineas (catalog : List Course) (records : List TakenRecord)
    (sid code : String) : ℚ :=
  match get_course_info catalog code with
  | none => 0
  | some info =>
    if info.lineas_carrera.isEmpty then 0
    else if (relatedGrades catalog records sid info).isEmpty then 0
    else
      clamp01 (((relatedGrades catalog records sid info).sum /
        ((relatedGrades catalog records sid info).length : ℚ) - 10) / 10)

/-- Whether a passed course pc shares at least one linea with the target
course (the overlap test inside calcular_peso_lineas). -/
def shares_track (catalog : List Course) (code pc : String) : Bool :=
  match get_course_info catalog code, get_course_info catalog pc with
  | some info, some pinfo => info.lineas_carrera.any (fun l => l ∈ pinfo.lineas_carrera)
  | _, _ => false

/-- Whether some passed course of the student shares a linea with the target. -/
def some_passed_shares_track (catalog : List Course) (records : List TakenRecord)
    (sid code : String) : Bool :=
  (passed_courses records sid 10).any (fun pc => shares_track catalog code pc)

/-- The deduplicated list of all courses the student has attempted
(`all_taken = set(history[..all_courses..])` in recomendar_cursos). -/
def allTakenOf (records : List TakenRecord) (sid : String) : List String :=
  (all_courses_of records sid).dedup

/-- Priority-1 candidates of recomendar_cursos:
`(all_taken - passed) & OBLIGATORY_COURSES` (obligatory courses attempted but
not passed).  Python set iteration order is unspecified; first-occurrence
order is used here, which agrees as a set. -/
def failedCourses (records : List TakenRecord) (sid : String) : List String :=
  (allTakenOf records sid).filter (fun c =>
    ¬ (c ∈ passed_courses records sid 10) ∧ c ∈ OBLIGATORY_COURSES)

/-- Priority-2 candidates: `OBLIGATORY_COURSES - all_taken`
(obligatory courses never attempted). -/
def notTakenObligatory (records : List TakenRecord) (sid : String) : List String :=
  OBLIGATORY_COURSES.filter (fun c => ¬ (c ∈ allTakenOf records sid))

/-- Priority-3 candidates: `all_courses - passed - OBLIGATORY_COURSES`
(catalog courses neither passed nor obligatory). -/
def otherCourses (catalog : List Course) (records : List TakenRecord)
    (sid : String) : List String :=
  (catalogCodes catalog).dedup.filter (fun c =>
    ¬ (c ∈ passed_courses records sid 10) ∧ ¬ (c ∈ OBLIGATORY_COURSES))

/-- prioritized_candidates of recomendar_cursos:
failed obligatory ++ missing obligatory ++ other courses. -/
def prioritizedCandidates (catalog : List Course) (records : List TakenRecord)
    (sid : String) : List String :=
  failedCourses records sid ++ notTakenObligatory records sid ++
    otherCourses catalog records sid

/-- The trained collaborators CourseRecommender holds, as score oracles:
hybrid_model.predict_score, content_model.compute_similarity,
kg_builder.get_course_neighbors, cf_model.predict_score. -/
structure Models where
  hybrid_score : String → String → ℚ
  content_sim : String → String → ℚ
  kg_neighbors : String → List (String × String)
  cf_score : String → String → ℚ

/-- The dict returned by CourseRecommender.explain_recommendation. -/
structure Explanation where
  content_similarity : ℚ
  kg_neighbors : List (String × String)
  collaborative_score : ℚ
  lineas_performance : ℚ
  prerequisites : List String
  prerequisites_met : Bool
deriving DecidableEq

/-- CourseRecommender.explain_recommendation. -/
def explain_recommendation (catalog : List Course) (records : List TakenRecord)
    (models : Models) (sid code : String) : Explanation :=
  { content_similarity := models.content_sim sid code
    kg_neighbors := models.kg_neighbors code
    collaborative_score := models.cf_score sid code
    lineas_performance := calcular_peso_lineas catalog records sid code
    prerequisites := prereqsOf catalog code
    prerequisites_met := cumple_prereqs catalog records sid code }

/-- One entry of the scores list built by recomendar_cursos step 4. -/
structure ScoreItem where
  course_code : String
  score : ℚ
  priority : Nat
  is_failed : Bool
  is_obligatory : Bool
  lineas_weight : ℚ
deriving DecidableEq

/-- The scores-list entry recomendar_cursos appends for one candidate:
final_score = hybrid + lineas_weight * 0.5, then +2.0 / priority 1 for a
failed obligatory, +1.0 / priority 2 for a missing obligatory, else
priority 3. -/
def mkScoreItem (catalog : List Course) (records : List TakenRecord)
    (models : Models) (sid c : String) : ScoreItem :=
  let lineas_weight := calcular_peso_lineas catalog records sid c
  let base := models.hybrid_score sid c + lineas_weight * (1/2)
  let is_obligatory := decide (c ∈ OBLIGATORY_COURSES)
  if c ∈ failedCourses records sid then
    { course_code := c, score := base + 2, priority := 1,
      is_failed := true, is_obligatory := is_obligatory,
      lineas_weight := lineas_weight }
  else if c ∈ notTakenObligatory records sid then
    { course_code := c, score := base + 1, priority := 2,
      is_failed := false, is_obligatory := is_obligatory,
      lineas_weight := lineas_weight }
  else
    { course_code := c, score := base, priority := 3,
      is_failed := false, is_obligatory := is_obligatory,
      lineas_weight := lineas_weight }

/-- The scores list of recomendar_cursos: every prioritised candidate whose
prerequisites are met, scored by mkScoreItem. -/
def scoresList (catalog : List Course) (records : List TakenRecord)
    (models : Models) (sid : String) : List ScoreItem :=
  (prioritizedCandidates catalog records sid).filterMap (fun c =>
    if cumple_prereqs catalog records sid c then
      some (mkScoreItem catalog records models sid c)
    else none)

/-- The sort order of recomendar_cursos step 5
(`scores.sort(key=lambda x: (x[..priority..], -x[..score..]))`):
ascending priority, then descending score. -/
def rankLE (a b : ScoreItem) : Prop :=
  a.priority < b.priority ∨ (a.priority = b.priority ∧ b.score ≤ a.score)

instance : DecidableRel rankLE := fun a b => by
  unfold rankLE; infer_instance

instance : IsTotal ScoreItem rankLE where
  total a b := by
    unfold rankLE
    rcases Nat.lt_trichotomy a.priority b.priority with h | h | h
    · exact Or.inl (Or.inl h)
    · rcases le_total b.score a.score with hs | hs
      · exact Or.inl (Or.inr ⟨h, hs⟩)
      · exact Or.inr (Or.inr ⟨h.symm, hs⟩)
    · exact Or.inr (Or.inl h)

instance : IsTrans ScoreItem rankLE where
  trans a b c hab hbc := by
    unfold rankLE at *
    rcases hab with h1 | ⟨h1, s1⟩
    · rcases hbc with h2 | ⟨h2, _⟩
      · exact Or.inl (h1.trans h2)
      · exact Or.inl (h2 ▸ h1)
    · rcases hbc with h2 | ⟨h2, s2⟩
      · exact Or.inl (h1 ▸ h2)
      · exact Or.inr ⟨h1.trans h2, s2.trans s1⟩

/-- One entry of the list returned by recomendar_cursos step 6. -/
structure Recommendation where
  course_code : String
  course_name : String
  score : ℚ
  lineas_carrera : List String
  is_failed : Bool
  is_obligatory : Bool
  priority : Nat
  reasons : Explanation
deriving DecidableEq

/-- The recommendation entry built from a surviving score item: course
metadata comes from get_course_info, with empty-string name and empty linea
list when the course has no catalog entry. -/
def mkRecommendation (catalog : List Course) (records : List TakenRecord)
    (models : Models) (sid : String) (item : ScoreItem) : Recommendation :=
  let info := get_course_info catalog item.course_code
  { course_code := item.course_code
    course_name := match info with
      | some i => i.course_name
      | none => ("")
    score := item.score
    lineas_carrera := match info with
      | some i => i.lineas_carrera
      | none => []
    is_failed := item.is_failed
    is_obligatory := item.is_obligatory
    priority := item.priority
    reasons := explain_recommendation catalog records models sid item.course_code }

/-- CourseRecommender.recomendar_cursos: build prioritised candidates, drop
those failing prerequisites, score, sort by (priority asc, score desc) with a
stable sort (Python list.sort), truncate to top_k and attach explanations.
Python list.sort is stable; insertionSort is the stable sort used here. -/
def recomendar_cursos (catalog : List Course) (records : List TakenRecord)
    (models : Models) (sid : String) (top_k : Nat) : List Recommendation :=
  if prioritizedCandidates catalog records sid = [] then []
  else
    ((List.insertionSort rankLE (scoresList catalog records models sid)).take
      top_k).map (mkRecommendation catalog records models sid)

/-! ## cf_model.py : CollaborativeFilteringModel.recommend -/

/-- Dot product of two factor vectors (np.dot on equal-length vectors). -/
def dotQ (u v : List ℚ) : ℚ :=
  (List.zipWith (fun a b => a * b) u v).sum

/-- The data CollaborativeFilteringModel.recommend reads for one known
student: the item factor rows, the student's user-factor vector, the
student's interaction-matrix row, and the idx_to_course index. -/
structure CFQuery where
  item_factors : List (List ℚ)
  user_emb : List ℚ
  row : List ℚ
  idx_to_course : List String

/-- scores = item_factors @ user_emb. -/
def cfScores (q : CFQuery) : List ℚ :=
  q.item_factors.map (fun f => dotQ f q.user_emb)

/-- The masked score of item i: scores_copy[taken_items] = -inf, modelled as
bottom of WithBot; taken items are the nonzero entries of the student's
interaction row. -/
def cfMasked (q : CFQuery) (i : Nat) : WithBot ℚ :=
  if q.row.getD i 0 ≠ 0 then ⊥ else ((cfScores q).getD i 0 : ℚ)

/-- The ranking order of np.argsort(-scores_copy): descending masked score.
np.argsort resolves ties in an unspecified (quicksort) order; the stable
insertionSort below is one admissible resolution. -/
def cfOrder (q : CFQuery) (i j : Nat) : Prop :=
  cfMasked q j ≤ cfMasked q i

instance (q : CFQuery) : DecidableRel (cfOrder q) := fun i j => by
  unfold cfOrder; infer_instance

instance (q : CFQuery) : IsTotal Nat (cfOrder q) where
  total i j := le_total (cfMasked q j) (cfMasked q i)

instance (q : CFQuery) : IsTrans Nat (cfOrder q) where
  trans _ _ _ hab hbc := le_trans hbc hab

/-- top_indices = np.argsort(-scores_copy)[:top_k]. -/
def cfTopIndices (q : CFQuery) (top_k : Nat) : List Nat :=
  (List.insertionSort (cfOrder q) (List.range q.item_factors.length)).take top_k

/-- CollaborativeFilteringModel.recommend for a known student: the top-k
indices mapped to (course code, original unmasked score). -/
def cfRecommend (q : CFQuery) (top_k : Nat) : List (String × ℚ) :=
  (cfTopIndices q top_k).map (fun i =>
    (q.idx_to_course.getD i (""), (cfScores q).getD i 0))

/-! ## kg_builder.py : embedding lookups (get_student_embedding /
get_course_embedding) -/

/-- The embedding table and configured dimension of KnowledgeGraphBuilder;
the Python dict of node id to vector is an association list here. -/
structure KGState where
  embeddings : List (String × List ℚ)
  embedding_dim : Nat

/-- Dict lookup in the embedding table. -/
def lookupEmb (kg : KGState) (node : String) : Option (List ℚ) :=
  (kg.embeddings.find? (fun e => e.1 == node)).map (fun e => e.2)

/-- KnowledgeGraphBuilder.get_student_embedding: the stored embedding of node
Student:id, or a zero vector of the configured dimension when absent. -/
def get_student_embedding (kg : KGState) (sid : String) : List ℚ :=
  match lookupEmb kg (("Student:") ++ sid) with
  | some v => v
  | none => List.replicate kg.embedding_dim 0

/-- KnowledgeGraphBuilder.get_course_embedding: the stored embedding of node
Course:code, or a zero vector of the configured dimension when absent. -/
def get_course_embedding (kg : KGState) (code : String) : List ℚ :=
  match lookupEmb kg (("Course:") ++ code) with
  | some v => v
  | none => List.replicate kg.embedding_dim 0

/-! ## kg_builder.py : the simplified skip-gram update
(KnowledgeGraphBuilder.train_node2vec and its _update_embeddings helper).

The embedding state is a total map from node id to vector; vector arithmetic
is componentwise over a field.  The in-place numpy updates become sequential
functional updates, which reproduces the aliasing semantics of the Python
code exactly (including the case walk[i] = walk[j]). -/

/-- Componentwise dot product over a field. -/
def dotV {α : Type} [Field α] (u v : List α) : α :=
  (List.zipWith (fun a b => a * b) u v).sum

/-- Componentwise vector subtraction. -/
def vSub {α : Type} [Field α] (u v : List α) : List α :=
  List.zipWith (fun a b => a - b) u v

/-- Scalar times vector. -/
def vSmul {α : Type} [Field α] (a : α) (v : List α) : List α :=
  v.map (fun x => a * x)

/-- Pointwise update of the embedding map at one node. -/
def updF {α : Type} (st : String → List α) (n : String) (v : List α) :
    String → List α :=
  fun m => if m = n then v else st m

/-- The body of the inner pair loop of _update_embeddings:
similarity = dot(emb[node], emb[ctx]); gradient = (similarity - 1.0) * lr;
emb[node] -= gradient * emb[ctx]; emb[ctx] -= gradient * emb[node].
The second statement reads emb[node] after the first has mutated it. -/
def pairStep {α : Type} [Field α] (lr : α) (st : String → List α)
    (node ctx : String) : String → List α :=
  let g := (dotV (st node) (st ctx) - 1) * lr
  let st1 := updF st node (vSub (st node) (vSmul g (st ctx)))
  updF st1 ctx (vSub (st1 ctx) (vSmul g (st1 node)))

/-- The pair update as the specification words it: emb[i] -= gradient *
emb[j] and emb[j] -= gradient * emb[i] with both right-hand sides taken from
the pre-update state.  Kept for comparison with pairStep. -/
def pairStepSpec {α : Type} [Field α] (lr : α) (st : String → List α)
    (node ctx : String) : String → List α :=
  let g := (dotV (st node) (st ctx) - 1) * lr
  let st1 := updF st node (vSub (st node) (vSmul g (st ctx)))
  updF st1 ctx (vSub (st ctx) (vSmul g (st node)))

/-- Default node id for out-of-range walk positions (never hit: the loops
below only index within the walk). -/
def defaultNode : String := ("")

/-- The context positions the inner loop visits for position i:
j in range(max(0, i-5), min(len(walk), i+5+1)) with j distinct from i
(window_size = 5). -/
def contextIndices (walkLen i : Nat) : List Nat :=
  ((List.range walkLen).filter (fun j => i - 5 ≤ j ∧ j < min walkLen (i + 6))).filter
    (fun j => j ≠ i)

/-- The inner pair loop of _update_embeddings for position i of the walk. -/
def windowStep {α : Type} [Field α] (lr : α) (walk : List String)
    (st : String → List α) (i : Nat) : String → List α :=
  (contextIndices walk.length i).foldl
    (fun s j => pairStep lr s (walk.getD i defaultNode) (walk.getD j defaultNode)) st

/-- Euclidean norm of a vector (np.linalg.norm). -/
noncomputable def vecNormR (v : List ℝ) : ℝ :=
  Real.sqrt ((v.map (fun x => x * x)).sum)

/-- The renormalisation at the end of each outer iteration:
emb[node] /= (norm(emb[node]) + 1e-10). -/
noncomputable def normalizeR (v : List ℝ) : List ℝ :=
  v.map (fun x => x / (vecNormR v + 1 / 10000000000))

/-- One outer iteration of _update_embeddings: run the pair loop for the
window of position i, then renormalise the embedding of walk[i]. -/
noncomputable def nodeStep (walk : List String) (st : String → List ℝ)
    (i : Nat) : String → List ℝ :=
  let node := walk.getD i defaultNode
  let st1 := windowStep ((1 : ℝ) / 100) walk st i
  updF st1 node (normalizeR (st1 node))

/-- KnowledgeGraphBuilder._update_embeddings on one walk, with the default
learning_rate = 0.01. -/
noncomputable def updateEmbeddings (walk : List String)
    (st : String → List ℝ) : String → List ℝ :=
  (List.range walk.length).foldl (fun s i => nodeStep walk s i) st

/-! ## Helper lemmas -/

lemma foldl_max_mem (g : ℚ) (gs : List ℚ) : gs.foldl max g ∈ g :: gs := by
  induction gs generalizing g with
  | nil => simp
  | cons a t ih =>
    simp only [List.foldl_cons]
    rcases List.mem_cons.mp (ih (max g a)) with h | h
    · rcases max_choice g a with hm | hm
      · exact List.mem_cons.mpr (Or.inl (h.trans hm))
      · exact List.mem_cons.mpr (Or.inr (List.mem_cons.mpr (Or.inl (h.trans hm))))
    · exact List.mem_cons.mpr (Or.inr (List.mem_cons.mpr (Or.inr h)))

lemma foldl_max_le (g : ℚ) (gs : List ℚ) : ∀ x ∈ g :: gs, x ≤ gs.foldl max g := by
  induction gs generalizing g with
  | nil => simp
  | cons a t ih =>
    intro x hx
    simp only [List.foldl_cons]
    have hg : max g a ≤ t.foldl max (max g a) :=
      ih (max g a) (max g a) (List.mem_cons_self _ _)
    rcases List.mem_cons.mp hx with h | h
    · exact h ▸ (le_max_left g a).trans hg
    · rcases List.mem_cons.mp h with h2 | h2
      · exact h2 ▸ (le_max_right g a).trans hg
      · exact ih (max g a) x (List.mem_cons.mpr (Or.inr h2))

lemma count_map_code (l : List TakenRecord) (c : String) :
    (l.map (fun r => r.course_code)).count c
      = (l.filter (fun r => r.course_code == c)).length := by
  induction l with
  | nil => rfl
  | cons r t ih =>
    simp only [List.map_cons, List.count_cons, List.filter_cons]
    by_cases h : r.course_code == c
    · simp [h, ih]
    · simp [h, ih]

lemma mem_all_courses_of_grades_ne_nil (records : List TakenRecord)
    (sid c : String) (h : gradesOf records sid c ≠ []) :
    c ∈ all_courses_of records sid := by
  rcases List.exists_mem_of_ne_nil _ h with ⟨g, hg⟩
  unfold gradesOf at hg
  rcases List.mem_map.mp hg with ⟨r, hr, _⟩
  have hr2 := List.mem_filter.mp hr
  exact List.mem_map.mpr ⟨r, hr2.1, by simpa using hr2.2⟩

lemma take_sorted_all {α : Type} (p : α → Prop) [DecidablePred p]
    (R : α → α → Prop) (hdown : ∀ a b, R a b → ¬ p a → ¬ p b) :
    ∀ (l : List α) (k : Nat), l.Pairwise R →
      k ≤ l.countP (fun a => decide (p a)) → ∀ x ∈ l.take k, p x := by
  intro l
  induction l with
  | nil => intro k _ _ x hx; simp at hx
  | cons a t ih =>
    intro k hp hk x hx
    cases k with
    | zero => simp at hx
    | succ k =>
      by_cases hpa : p a
      · rw [List.take_succ_cons] at hx
        rcases List.mem_cons.mp hx with h | h
        · exact h ▸ hpa
        · refine ih k hp.of_cons ?_ x h
          rw [List.countP_cons] at hk
          simpa [hpa] using Nat.le_of_succ_le_succ (by simpa [hpa] using hk)
      · exfalso
        have hz : t.countP (fun a => decide (p a)) = 0 :=
          List.countP_eq_zero.mpr (fun b hb => by
            simpa using hdown a b (List.rel_of_pairwise_cons hp hb) hpa)
        rw [List.countP_cons] at hk
        simp [hpa, hz] at hk

/-! ## Claim theorems -/

/-- Claim C3: cumple_prereqs returns true when the course declares no
prerequisites (also when the course has no catalog entry), and otherwise
returns true exactly when every declared prerequisite is in the student's
passed set computed with the hardcoded threshold 10.0. -/
theorem claim_C3_prereq_gate (catalog : List Course) (records : List TakenRecord)
    (sid code : String) :
    (cumple_prereqs catalog records sid code = true ↔
      ∀ p ∈ prereqsOf catalog code, p ∈ passed_courses records sid 10)
    ∧ (prereqsOf catalog code = [] →
        cumple_prereqs catalog records sid code = true) := by
  unfold cumple_prereqs prereqsOf
  cases h : get_course_info catalog code with
  | none => simp
  | some info =>
    by_cases he : info.prereq_codes.isEmpty
    · constructor
      · simp [he, List.isEmpty_iff.mp he]
      · intro _; simp [he]
    · constructor
      · simp [he, List.all_eq_true]
      · intro hnil
        rw [List.isEmpty_iff] at he
        exact absurd hnil he

/-- Witness for claim C3 at a concrete catalog: a course with an empty
prerequisite list passes the gate. -/
theorem claim_C3_witness :
    cumple_prereqs [⟨("CX"), ("X"), [], []⟩] [] ("s1") ("CX") = true :=
  (claim_C3_prereq_gate [⟨("CX"), ("X"), [], []⟩] [] ("s1") ("CX")).2 (by decide)

/-- Claim C9: the knowledge-graph embedding lookups return the stored vector
when the namespaced node id is present, and otherwise a zero vector of the
configured dimension; both are total functions (they never fail). -/
theorem claim_C9_embedding_lookup (kg : KGState) (sid code : String) :
    ((∃ v, lookupEmb kg (("Student:") ++ sid) = some v ∧
        get_student_embedding kg sid = v)
      ∨ (lookupEmb kg (("Student:") ++ sid) = none ∧
        get_student_embedding kg sid = List.replicate kg.embedding_dim 0))
    ∧ ((∃ v, lookupEmb kg (("Course:") ++ code) = some v ∧
        get_course_embedding kg code = v)
      ∨ (lookupEmb kg (("Course:") ++ code) = none ∧
        get_course_embedding kg code = List.replicate kg.embedding_dim 0)) := by
  constructor
  · cases h : lookupEmb kg (("Student:") ++ sid) with
    | none => exact Or.inr ⟨rfl, by unfold get_student_embedding; rw [h]⟩
    | some v => exact Or.inl ⟨v, rfl, by unfold get_student_embedding; rw [h]⟩
  · cases h : lookupEmb kg (("Course:") ++ code) with
    | none => exact Or.inr ⟨rfl, by unfold get_course_embedding; rw [h]⟩
    | some v => exact Or.inl ⟨v, rfl, by unfold get_course_embedding; rw [h]⟩

/-- The retake scenario of claim C6: course A attempted twice by student s1,
grades 15 (cycle 1) and 8 (cycle 2). -/
def exRecordsC6 : List TakenRecord :=
  [⟨("s1"), ("A"), 1, 15⟩, ⟨("s1"), ("A"), 2, 8⟩]

/-- Claim C6: get_student_history takes the best grade per course as the max
over attempts, a course is passed exactly when its best grade reaches the
threshold, all_courses keeps every attempt; concretely, for the retake
scenario, A is passed with best grade 15 and listed twice. -/
theorem claim_C6_history (records : List TakenRecord) (sid : String) (th : ℚ)
    (c : String) :
    ((c ∈ passed_courses records sid th ↔
        ∃ g, best_grade records sid c = some g ∧ th ≤ g)
      ∧ (∀ g, best_grade records sid c = some g →
          g ∈ gradesOf records sid c ∧ ∀ g2 ∈ gradesOf records sid c, g2 ≤ g)
      ∧ (all_courses_of records sid).count c = (gradesOf records sid c).length)
    ∧ ((("A") ∈ passed_courses exRecordsC6 ("s1") 10)
      ∧ best_grade exRecordsC6 ("s1") ("A") = some 15
      ∧ (all_courses_of exRecordsC6 ("s1")).count ("A") = 2) := by
  refine ⟨⟨?_, ?_, ?_⟩, by decide, by decide, by decide⟩
  · unfold passed_courses
    constructor
    · intro hc
      have hm := List.mem_filter.mp hc
      cases hbg : best_grade records sid c with
      | none => rw [hbg] at hm; exact absurd hm.2 (by simp)
      | some g =>
        refine ⟨g, rfl, ?_⟩
        have := hm.2
        rw [hbg] at this
        exact of_decide_eq_true this
    · rintro ⟨g, hbg, hth⟩
      refine List.mem_filter.mpr ⟨?_, ?_⟩
      · refine List.mem_dedup.mpr (mem_all_courses_of_grades_ne_nil records sid c ?_)
        intro hnil
        unfold best_grade at hbg
        rw [hnil] at hbg
        exact Option.noConfusion hbg
      · rw [hbg]
        exact decide_eq_true hth
  · intro g hbg
    unfold best_grade at hbg
    cases hgr : gradesOf records sid c with
    | nil => rw [hgr] at hbg; exact Option.noConfusion hbg
    | cons g0 gs =>
      rw [hgr] at hbg
      have hg : g = gs.foldl max g0 := (Option.some.injEq _ _).mp hbg |>.symm
      subst hg
      exact ⟨hgr ▸ foldl_max_mem g0 gs, fun g2 hg2 => foldl_max_le g0 gs g2 (hgr ▸ hg2)⟩
  · unfold all_courses_of gradesOf
    rw [count_map_code, List.length_map]

/-- Witness for claim C6: in the retake scenario the best grade 15 is one of
the attempt grades and bounds both attempts. -/
theorem claim_C6_witness :
    15 ∈ gradesOf exRecordsC6 ("s1") ("A")
    ∧ ∀ g2 ∈ gradesOf exRecordsC6 ("s1") ("A"), g2 ≤ 15 :=
  (claim_C6_history exRecordsC6 ("s1") 10 ("A")).1.2.1 15 (by decide)

/-- Claim C8: a HAS_PREREQ edge is added for a declared prerequisite exactly
when the prerequisite is a catalog course; a dangling prerequisite produces
no edge, the build still completes (hasPrereqEdges is total), and the
validation report lists the dangling code among invalid prerequisites. -/
theorem claim_C8_dangling_prereq (catalog : List Course) (c : Course) (p : String)
    (hc : c ∈ catalog) (hp : p ∈ c.prereq_codes) :
    ((c.course_code, p) ∈ hasPrereqEdges catalog ↔ p ∈ catalogCodes catalog)
    ∧ (¬ p ∈ catalogCodes catalog → p ∈ invalidPrereqs catalog) := by
  constructor
  · constructor
    · intro hedge
      unfold hasPrereqEdges at hedge
      rcases List.mem_flatMap.mp hedge with ⟨c2, _, hpair⟩
      rcases List.mem_map.mp hpair with ⟨p2, hp2, heq⟩
      have : p2 = p := congrArg Prod.snd heq
      exact this ▸ (by simpa using (List.mem_filter.mp hp2).2)
    · intro hmem
      unfold hasPrereqEdges
      exact List.mem_flatMap.mpr ⟨c, hc,
        List.mem_map.mpr ⟨p, List.mem_filter.mpr ⟨hp, by simpa using hmem⟩, rfl⟩⟩
  · intro hmem
    unfold invalidPrereqs
    refine List.mem_filter.mpr ⟨?_, by simpa using hmem⟩
    exact List.mem_flatMap.mpr ⟨c, hc, hp⟩

/-- Witness for claim C8: a one-course catalog declaring the dangling
prerequisite P99 gets no edge and P99 is reported invalid. -/
theorem claim_C8_witness :
    (((("C01"), ("P99")) ∈ hasPrereqEdges [⟨("C01"), ("C"), [("P99")], []⟩] ↔
      ("P99") ∈ catalogCodes [⟨("C01"), ("C"), [("P99")], []⟩])
    ∧ (¬ ("P99") ∈ catalogCodes [⟨("C01"), ("C"), [("P99")], []⟩] →
      ("P99") ∈ invalidPrereqs [⟨("C01"), ("C"), [("P99")], []⟩])) :=
  claim_C8_dangling_prereq [⟨("C01"), ("C"), [("P99")], []⟩]
    ⟨("C01"), ("C"), [("P99")], []⟩ ("P99") (by decide) (by decide)

/-- Catalog for the claim C4 counterexample: target course CT and course CP
share linea L1; CP has no prerequisites. -/
def exCatC4 : List Course :=
  [⟨("CT"), ("Target"), [], [("L1")]⟩, ⟨("CP"), ("Related"), [], [("L1")]⟩]

/-- History for the claim C4 counterexample: student s1 passed CP with the
borderline grade 10. -/
def exRecsC4 : List TakenRecord := [⟨("s1"), ("CP"), 1, 10⟩]

/-- Counterexample to claim C4 as stated: the track-performance weight is 0
for target CT even though passed course CP shares linea L1 with it (the
average related grade 10 maps to weight 0), so the weight being 0 is not
equivalent to the absence of a shared track. -/
theorem claim_C4_counterexample :
    calcular_peso_lineas exCatC4 exRecsC4 ("s1") ("CT") = 0 ∧
    some_passed_shares_track exCatC4 exRecsC4 ("s1") ("CT") = true := by
  have h1 : passed_courses exRecsC4 ("s1") 10 = [("CP")] := by
    simp [passed_courses, all_courses_of, studentRecords, gradesOf, best_grade,
      exRecsC4]
  have hinfo : get_course_info exCatC4 ("CT")
      = some ⟨("CT"), ("Target"), [], [("L1")]⟩ := by
    simp [get_course_info, exCatC4, List.find?]
  have hrel : relatedGrades exCatC4 exRecsC4 ("s1")
      ⟨("CT"), ("Target"), [], [("L1")]⟩ = [10] := by
    simp only [relatedGrades]
    rw [h1]
    simp [get_course_info, exCatC4, List.find?, best_grade, gradesOf,
      studentRecords, exRecsC4, List.filterMap]
  constructor
  · rw [calcular_peso_lineas, hinfo]
    norm_num [hrel, clamp01]
  · unfold some_passed_shares_track
    rw [h1]
    simp [shares_track, get_course_info, exCatC4, List.find?]

/-- Claim C4 (amended): the track-performance weight always lies in the
closed interval from 0 to 1, and it is 0 whenever no passed course of the
student shares a linea with the target course (it can also be 0 with a
shared linea, when the average related grade is at most 10). -/
lemma clamp01_nonneg (x : ℚ) : 0 ≤ clamp01 x := by
  unfold clamp01
  split_ifs with h1 h2
  · exact le_refl 0
  · norm_num
  · linarith [not_le.mp h1]

lemma clamp01_le_one (x : ℚ) : clamp01 x ≤ 1 := by
  unfold clamp01
  split_ifs with h1 h2
  · norm_num
  · exact le_refl 1
  · linarith [not_le.mp h2]

lemma relatedGrades_eq_nil_of_no_shared (catalog : List Course)
    (records : List TakenRecord) (sid code : String) (info : Course)
    (h : get_course_info catalog code = some info)
    (hshare : some_passed_shares_track catalog records sid code = false) :
    relatedGrades catalog records sid info = [] := by
  unfold relatedGrades
  rw [List.filterMap_eq_nil_iff]
  intro pc hpc
  have hst : shares_track catalog code pc = false := by
    have := List.any_eq_false.mp hshare pc hpc
    simpa using this
  unfold shares_track at hst
  rw [h] at hst
  cases hpi : get_course_info catalog pc with
  | none => simp
  | some pinfo =>
    rw [hpi] at hst
    have hst2 : (info.lineas_carrera.any
        (fun l => l ∈ pinfo.lineas_carrera)) = false := hst
    simp only [hpi]
    by_cases hpe : pinfo.lineas_carrera.isEmpty
    · simp [hpe]
    · simp [hpe, hst2]

theorem claim_C4_weight_range (catalog : List Course) (records : List TakenRecord)
    (sid code : String) :
    0 ≤ calcular_peso_lineas catalog records sid code ∧
    calcular_peso_lineas catalog records sid code ≤ 1 ∧
    (some_passed_shares_track catalog records sid code = false →
      calcular_peso_lineas catalog records sid code = 0) := by
  refine ⟨?_, ?_, ?_⟩
  · unfold calcular_peso_lineas
    split
    · exact le_refl 0
    · split
      · exact le_refl 0
      · split
        · exact le_refl 0
        · exact clamp01_nonneg _
  · unfold calcular_peso_lineas
    split
    · norm_num
    · split
      · norm_num
      · split
        · norm_num
        · exact clamp01_le_one _
  · intro hshare
    unfold calcular_peso_lineas
    cases h : get_course_info catalog code with
    | none => rfl
    | some info =>
      have hnil := relatedGrades_eq_nil_of_no_shared catalog records sid code
        info h hshare
      simp [hnil]

/-- Witness for the amended claim C4: with an empty history nothing shares a
linea with CT, and the weight is 0. -/
theorem claim_C4_witness :
    calcular_peso_lineas exCatC4 [] ("s1") ("CT") = 0 :=
  (claim_C4_weight_range exCatC4 [] ("s1") ("CT")).2.2 (by decide)

/-- Claim C1: in the list returned by recomendar_cursos, any earlier
recommendation has a strictly smaller priority than any later one, or the
same priority and a score at least as large: priority ascending dominates,
score descending breaks within a priority tier. -/
theorem claim_C1_sorting_invariant (catalog : List Course)
    (records : List TakenRecord) (models : Models) (sid : String)
    (top_k : Nat) :
    (recomendar_cursos catalog records models sid top_k).Pairwise
      (fun r1 r2 => r1.priority < r2.priority ∨
        (r1.priority = r2.priority ∧ r2.score ≤ r1.score)) := by
  unfold recomendar_cursos
  split
  · exact List.Pairwise.nil
  · have hs : (List.insertionSort rankLE
        (scoresList catalog records models sid)).Pairwise rankLE :=
      List.sorted_insertionSort rankLE _
    exact (hs.sublist (List.take_sublist _ _)).map _ (fun a b hab => hab)

/-- Claim C2: every scored prerequisite-satisfying candidate (and hence every
returned recommendation) carries score hybrid + lineas_weight * 0.5 plus the
fixed boost +2 for a failed obligatory (priority 1), +1 for an obligatory
never taken (priority 2), +0 otherwise (priority 3). -/
theorem claim_C2_final_score (catalog : List Course)
    (records : List TakenRecord) (models : Models) (sid : String)
    (top_k : Nat) :
    (∀ item ∈ scoresList catalog records models sid,
      item.score = models.hybrid_score sid item.course_code
        + calcular_peso_lineas catalog records sid item.course_code * (1/2)
        + (if item.course_code ∈ failedCourses records sid then 2
           else if item.course_code ∈ notTakenObligatory records sid then 1
           else 0)
      ∧ item.priority
        = (if item.course_code ∈ failedCourses records sid then 1
           else if item.course_code ∈ notTakenObligatory records sid then 2
           else 3))
    ∧ (∀ r ∈ recomendar_cursos catalog records models sid top_k,
      r.score = models.hybrid_score sid r.course_code
        + calcular_peso_lineas catalog records sid r.course_code * (1/2)
        + (if r.course_code ∈ failedCourses records sid then 2
           else if r.course_code ∈ notTakenObligatory records sid then 1
           else 0)
      ∧ r.priority
        = (if r.course_code ∈ failedCourses records sid then 1
           else if r.course_code ∈ notTakenObligatory records sid then 2
           else 3)) := by
  have hitem : ∀ item ∈ scoresList catalog records models sid,
      item.score = models.hybrid_score sid item.course_code
        + calcular_peso_lineas catalog records sid item.course_code * (1/2)
        + (if item.course_code ∈ failedCourses records sid then 2
           else if item.course_code ∈ notTakenObligatory records sid then 1
           else 0)
      ∧ item.priority
        = (if item.course_code ∈ failedCourses records sid then 1
           else if item.course_code ∈ notTakenObligatory records sid then 2
           else 3) := by
    intro item him
    rcases List.mem_filterMap.mp him with ⟨c, _, heq⟩
    by_cases hcp : cumple_prereqs catalog records sid c
    · rw [if_pos hcp] at heq
      cases heq
      unfold mkScoreItem
      by_cases h1 : c ∈ failedCourses records sid
      · simp [h1]
      · by_cases h2 : c ∈ notTakenObligatory records sid
        · simp [h1, h2]
        · simp [h1, h2]
    · rw [if_neg hcp] at heq
      exact absurd heq (by simp)
  refine ⟨hitem, ?_⟩
  intro r hr
  unfold recomendar_cursos at hr
  split at hr
  · simp at hr
  · rcases List.mem_map.mp hr with ⟨item, hitem2, rfl⟩
    have hmem : item ∈ scoresList catalog records models sid :=
      (List.perm_insertionSort rankLE _).mem_iff.mp
        (List.mem_of_mem_take hitem2)
    exact hitem item hmem

/-- Score oracles that return 0 everywhere (an untrained stack). -/
def zeroModels : Models :=
  ⟨fun _ _ => 0, fun _ _ => 0, fun _ => [], fun _ _ => 0⟩

/-- The score item recomendar_cursos builds for obligatory course BAE01 with
an empty catalog and empty history. -/
def itemW : ScoreItem := mkScoreItem [] [] zeroModels ("s01") ("BAE01")

/-- Witness for claim C2: the BAE01 candidate of an empty-catalog run
satisfies the score and priority characterisation. -/
theorem claim_C2_witness :
    itemW.score = zeroModels.hybrid_score ("s01") itemW.course_code
      + calcular_peso_lineas [] [] ("s01") itemW.course_code * (1/2)
      + (if itemW.course_code ∈ failedCourses [] ("s01") then 2
         else if itemW.course_code ∈ notTakenObligatory [] ("s01") then 1
         else 0)
    ∧ itemW.priority
      = (if itemW.course_code ∈ failedCourses [] ("s01") then 1
         else if itemW.course_code ∈ notTakenObligatory [] ("s01") then 2
         else 3) :=
  (claim_C2_final_score [] [] zeroModels ("s01") 1).1 itemW
    (List.mem_filterMap.mpr ⟨("BAE01"), by decide,
      by rw [if_pos (by decide)]; rfl⟩)

/-- Claim C5 (amended): the collaborative-filter ranking is sorted by
descending masked score, and as long as top_k does not exceed the number of
non-interacted items, no interacted item (nonzero interaction-row entry)
appears among the returned indices.  When top_k exceeds that number, the
masked (interacted) items fill the remaining slots, so the original claim's
"regardless of topK" fails. -/
theorem claim_C5_masked_ranking (q : CFQuery) (top_k : Nat) :
    (cfTopIndices q top_k).Pairwise
      (fun i j => cfMasked q j ≤ cfMasked q i)
    ∧ (top_k ≤ ((List.range q.item_factors.length).filter
          (fun i => decide (q.row.getD i 0 = 0))).length →
        ∀ i ∈ cfTopIndices q top_k, q.row.getD i 0 = 0) := by
  constructor
  · have hs : (List.insertionSort (cfOrder q)
        (List.range q.item_factors.length)).Pairwise (cfOrder q) :=
      List.sorted_insertionSort (cfOrder q) _
    exact hs.sublist (List.take_sublist _ _)
  · intro hk i hi
    have hdown : ∀ a b, cfOrder q a b →
        ¬ q.row.getD a 0 = 0 → ¬ q.row.getD b 0 = 0 := by
      intro a b hab ha
      have hma : cfMasked q a = ⊥ := by
        unfold cfMasked
        rw [if_pos ha]
      have hmb : cfMasked q b = ⊥ := le_bot_iff.mp (hma ▸ hab)
      intro hb
      unfold cfMasked at hmb
      rw [if_neg (by simpa using hb)] at hmb
      exact WithBot.coe_ne_bot hmb
    have hcount : top_k ≤ (List.insertionSort (cfOrder q)
        (List.range q.item_factors.length)).countP
          (fun a => decide (q.row.getD a 0 = 0)) := by
      rw [(List.perm_insertionSort (cfOrder q) _).countP_eq,
        List.countP_eq_length_filter]
      exact hk
    exact take_sorted_all (fun i => q.row.getD i 0 = 0) (cfOrder q) hdown _
      top_k (List.sorted_insertionSort (cfOrder q) _) hcount i hi

/-- A two-item collaborative-filter state (empty factor vectors, so all raw
scores are 0) where the student interacted with item 0 only. -/
def exCF : CFQuery := ⟨[[], []], [], [1, 0], [("I0"), ("I1")]⟩

/-- Witness for the amended claim C5: with top_k = 1 and one non-interacted
item, the single returned index is the non-interacted item 1. -/
theorem claim_C5_witness : exCF.row.getD 1 0 = 0 :=
  (claim_C5_masked_ranking exCF 1).2 (by decide) 1 (by decide)

/-- A one-item collaborative-filter state where the student interacted with
the only item. -/
def exCF2 : CFQuery := ⟨[[]], [], [1], [("I1")]⟩

/-- Counterexample to claim C5 as stated: the student interacted with item
I1 (nonzero row entry), yet recommend with top_k = 1 still returns I1,
because argsort ranks every index and the interacted ones fill the tail. -/
theorem claim_C5_counterexample :
    exCF2.row.getD 0 0 ≠ 0 ∧ ((("I1"), (0 : ℚ)) ∈ cfRecommend exCF2 1) := by
  decide

/-- Claim C7 (amended): for a pair of distinct nodes, the first in-place
update subtracts gradient times the pre-update context embedding from the
node embedding, but the second update subtracts gradient times the
ALREADY-UPDATED node embedding from the context embedding (the gradient
itself comes from the pre-update similarity); after the window of a walk
position is processed, the embedding of that node is renormalised. -/
theorem claim_C7_update_rule :
    (∀ (st : String → List ℚ) (n c : String), n ≠ c →
      (pairStep ((1 : ℚ)/100) st n c) n
        = vSub (st n) (vSmul ((dotV (st n) (st c) - 1) * (1/100)) (st c))
      ∧ (pairStep ((1 : ℚ)/100) st n c) c
        = vSub (st c) (vSmul ((dotV (st n) (st c) - 1) * (1/100))
            (vSub (st n)
              (vSmul ((dotV (st n) (st c) - 1) * (1/100)) (st c)))))
    ∧ (∀ (walk : List String) (st : String → List ℝ) (i : Nat),
        (nodeStep walk st i) (walk.getD i defaultNode)
          = normalizeR ((windowStep ((1 : ℝ)/100) walk st i)
              (walk.getD i defaultNode))) := by
  constructor
  · intro st n c hne
    constructor
    · simp [pairStep, updF, hne, Ne.symm hne]
    · simp [pairStep, updF, hne, Ne.symm hne]
  · intro walk st i
    simp [nodeStep, updF]

/-- The concrete embedding state for the claim C7 counterexample:
node a has embedding [1], node b has embedding [2]. -/
def embC7 : String → List ℚ :=
  fun s => if s = ("a") then [1] else if s = ("b") then [2] else []

/-- Witness for the amended claim C7 at the concrete state embC7. -/
theorem claim_C7_witness :
    (pairStep ((1 : ℚ)/100) embC7 ("a") ("b")) ("a")
      = vSub (embC7 ("a"))
          (vSmul ((dotV (embC7 ("a")) (embC7 ("b")) - 1) * (1/100))
            (embC7 ("b")))
    ∧ (pairStep ((1 : ℚ)/100) embC7 ("a") ("b")) ("b")
      = vSub (embC7 ("b"))
          (vSmul ((dotV (embC7 ("a")) (embC7 ("b")) - 1) * (1/100))
            (vSub (embC7 ("a"))
              (vSmul ((dotV (embC7 ("a")) (embC7 ("b")) - 1) * (1/100))
                (embC7 ("b"))))) :=
  (claim_C7_update_rule.1 embC7 ("a") ("b")) (by decide)

/-- Counterexample to claim C7 as stated: starting from embC7, the code's
sequential pair update gives node b the value 1.9902, while the rule with
both right-hand sides taken from the pre-update state gives 1.99 - the
second update does not use the pre-update embedding of node a. -/
theorem claim_C7_counterexample :
    (pairStep ((1 : ℚ)/100) embC7 ("a") ("b")) ("b")
      ≠ (pairStepSpec ((1 : ℚ)/100) embC7 ("a") ("b")) ("b") := by
  have h1 : (pairStep ((1 : ℚ)/100) embC7 ("a") ("b")) ("b")
      = [(19902 : ℚ)/10000] := by
    simp [pairStep, updF, dotV, vSub, vSmul, embC7]
    norm_num
  have h2 : (pairStepSpec ((1 : ℚ)/100) embC7 ("a") ("b")) ("b")
      = [(199 : ℚ)/100] := by
    simp [pairStepSpec, updF, dotV, vSub, vSmul, embC7]
    norm_num
  rw [h1, h2]
  intro h
  have := List.head_eq_of_cons_eq h
  norm_num at this

/-- Catalog for claim C10: a single elective course, none of the hardcoded
obligatory codes present. -/
def exCatC10 : List Course := [⟨("EL99"), ("Electivo"), [], []⟩]

/-- The score item recomendar_cursos builds for the phantom obligatory course
BAE01 against catalog exCatC10 and an empty history. -/
def itemC10 : ScoreItem := mkScoreItem exCatC10 [] zeroModels ("s01") ("BAE01")

/-- Claim C10: recomendar_cursos can return a course code that is not in the
catalog at all: an obligatory code the student never took is a priority-2
candidate regardless of catalog membership, passes the prerequisite check
vacuously (get_course_info yields none), and is emitted with empty
course_name and empty linea list. -/
theorem claim_C10_phantom_course :
    ∃ r ∈ recomendar_cursos exCatC10 [] zeroModels ("s01") 1000,
      ¬ r.course_code ∈ catalogCodes exCatC10
      ∧ r.course_code ∈ OBLIGATORY_COURSES
      ∧ get_course_info exCatC10 r.course_code = none
      ∧ cumple_prereqs exCatC10 [] ("s01") r.course_code = true
      ∧ r.priority = 2
      ∧ r.course_name = ("")
      ∧ r.lineas_carrera = [] := by
  have hmem_item : itemC10 ∈ scoresList exCatC10 [] zeroModels ("s01") :=
    List.mem_filterMap.mpr ⟨("BAE01"), by decide,
      by rw [if_pos (by decide)]; rfl⟩
  have hlen : (List.insertionSort rankLE
      (scoresList exCatC10 [] zeroModels ("s01"))).length ≤ 1000 := by
    rw [(List.perm_insertionSort rankLE _).length_eq]
    calc (scoresList exCatC10 [] zeroModels ("s01")).length
        ≤ (prioritizedCandidates exCatC10 [] ("s01")).length :=
          List.length_filterMap_le _ _
      _ ≤ 1000 := by decide
  refine ⟨mkRecommendation exCatC10 [] zeroModels ("s01") itemC10, ?_,
    by decide, by decide, by decide, by decide, by decide, rfl, rfl⟩
  unfold recomendar_cursos
  rw [if_neg (by decide :
    ¬ prioritizedCandidates exCatC10 [] ("s01") = [])]
  rw [List.take_of_length_le hlen]
  exact List.mem_map.mpr ⟨itemC10,
    (List.perm_insertionSort rankLE _).mem_iff.mpr hmem_item, rfl⟩

end ModRec
